import Mathlib

/-!
Verification of the connection-orchestration core of the Windscribe desktop
client (`src/client/engine/engine/engine.cpp`) against its specification.

The Engine's command handlers and ConnectionManager event handlers are
shallowly embedded as pure functions from an explicit `EngineState` to an
updated state together with a list of `Effect`s: each call the Engine makes
into a collaborator (ConnectionManager, FirewallController, Helper,
ApiResourcesManager, the two ConnectStateControllers, UI signal emissions)
is recorded as one effect, in the order the C++ code performs the calls.
Platform-conditional code is embedded for the Linux build (the
`Q_OS_WIN`/`Q_OS_MAC` branches are elided, the posix branches kept).
Collaborator state that the Engine reads (e.g. `connectionManager_->isDisconnected()`,
`firewallController_->firewallActualState()`) is part of `EngineState`;
the firewall on/off flag is updated when the Engine itself issues
`firewallOn`/`firewallOff`, since every firewall mutation in this code goes
through those calls.
-/

/-- CONNECT_STATE enum. -/
inductive CONNECT_STATE where
  | disconnected
  | connecting
  | connected
  | disconnecting
deriving DecidableEq, Repr

/-- DISCONNECT_REASON enum. -/
inductive DISCONNECT_REASON where
  | byUser
  | itself
  | withError
deriving DecidableEq, Repr

/-- CONNECT_ERROR enum (the values used by the embedded handlers). -/
inductive CONNECT_ERROR where
  | noConnectError
  | authError
  | privKeyPasswordError
  | locationNotExist
  | locationNoActiveNodes
  | connectionBlocked
  | other (code : Nat)
deriving DecidableEq, Repr

/-- FIREWALL_MODE enum. -/
inductive FIREWALL_MODE where
  | manual
  | automatic
  | alwaysOn
deriving DecidableEq, Repr

/-- FIREWALL_WHEN enum (firewall timing). -/
inductive FIREWALL_WHEN where
  | beforeConnection
  | afterConnection
deriving DecidableEq, Repr

/-- types::Protocol (the protocol kinds the embedded handlers distinguish). -/
inductive Protocol where
  | uninitialized
  | openvpn
  | ikev2
  | wireGuard
deriving DecidableEq, Repr

/-- Protocol::isIkev2Protocol. -/
def Protocol.isIkev2Protocol : Protocol → Bool
  | .ikev2 => true
  | _ => false

/-- Protocol::isWireGuardProtocol. -/
def Protocol.isWireGuardProtocol : Protocol → Bool
  | .wireGuard => true
  | _ => false

/-- LocationID value type: an identity plus the predicates the Engine branches on. -/
structure LocationID where
  ident : Nat
  isCustomConfigs : Bool
  isStaticIps : Bool
deriving DecidableEq, Repr

/-- LocationID::isCustomConfigsLocation. -/
def LocationID.isCustomConfigsLocation (l : LocationID) : Bool := l.isCustomConfigs

/-- types::ConnectionSettings: protocol + port + automatic flag. -/
structure ConnectionSettings where
  protocol : Protocol
  port : Nat
  isAutomaticFlag : Bool
deriving DecidableEq, Repr

/-- ConnectionSettings::isAutomatic. -/
def ConnectionSettings.isAutomatic (c : ConnectionSettings) : Bool := c.isAutomaticFlag

/-- types::PacketSize. -/
structure PacketSize where
  isAutomatic : Bool
  mtu : Int
deriving DecidableEq, Repr

/-- types::FirewallSettings (mode and timing). -/
structure FirewallSettings where
  mode : FIREWALL_MODE
  timing : FIREWALL_WHEN
deriving DecidableEq, Repr

/-- The result of `locationsModel_->getMutableLocationInfoById`: the fields
of BaseLocationInfo that `Engine::doConnect` reads. -/
structure BaseLocationInfo where
  locationId : LocationID
  isExistSelectedNode : Bool
  name : String
deriving DecidableEq, Repr

/-- EngineSettings: the persisted settings fields the embedded handlers read.
`connectionSettingsForNetwork` and `networkLastKnownGoodProtocol` are the
per-network lookups keyed by the network/SSID string. -/
structure EngineSettings where
  firewallSettings : FirewallSettings
  isAllowLanTraffic : Bool
  isTerminateSockets : Bool
  connectionSettingsForNetwork : String → ConnectionSettings
  networkLastKnownGoodProtocol : String → Protocol

/-- FirewallExceptions: the mutable exception-set fields the embedded
handlers read or write. -/
structure FirewallExceptions where
  connectingIp : String
  dnsServers : List String
  customRemoteIp : Option String
deriving DecidableEq, Repr

/-- One call the Engine makes into a collaborator, or one signal it emits. -/
inductive Effect where
  | cmClickDisconnect
  | cmClickConnect (emitAuthError : Bool) (settings : ConnectionSettings) (locIdent : Nat)
  | cmSetLastKnownGoodProtocol (p : Protocol)
  | cmContinueWithUsernameAndPassword (username password : String) (needReconnect : Bool)
  | cmContinueWithPassword (password : String) (needReconnect : Bool)
  | cmContinueWithPrivKeyPassword (password : String) (needReconnect : Bool)
  | cmUpdateConnectionSettings (settings : ConnectionSettings) (withApiPortMap : Bool)
  | cmStartTunnelTests
  | ctrlSetConnecting (loc : LocationID)
  | ctrlSetConnected (loc : LocationID)
  | ctrlSetDisconnecting
  | ctrlSetDisconnected (reason : DISCONNECT_REASON) (err : CONNECT_ERROR)
  | emergencyCtrlSetConnecting (loc : LocationID)
  | emergencyCtrlSetDisconnecting
  | emergencyCtrlSetDisconnected (reason : DISCONNECT_REASON) (err : CONNECT_ERROR)
  | fwOn (ip : String) (connectedSet : Bool) (allowLan : Bool) (isCustomConfig : Bool)
  | fwOff
  | fwSetInterfaceToSkip (name : String)
  | fwWhitelistPorts
  | fwDeleteWhitelistPorts
  | fwEnableFirewallOnBoot (b : Bool)
  | emitFirewallStateChanged (b : Bool)
  | myIpGetIP (timeoutMs : Nat)
  | helperSendConnectStatus (isConnected : Bool)
  | helperChangeMtu (adapter : String) (mtu : Int)
  | emitHelperSplitTunnelingStartFailed
  | emitRequestUsername
  | emitRequestPassword
  | emitRequestPrivKeyPassword
  | emitEmergencyDisconnected
  | emitNetworkChanged
  | emitSignOutFinished
  | apiFetchSession
  | apiFetchServerCredentials
  | connectServerCredentialsFetchedSignal
  | disconnectServerCredentialsFetchedSignal
  | storageSetAuthCredentials (file username password : String)
  | storageSetPrivKeyPassword (file password : String)
  | storageRemoveCredentials (file : String)
  | storageRemovePrivKeyPassword (file : String)
  | setDetectedIp (ip : String)
  | proxyDisable
  | proxyEnable
  | dnsSetConnectedState
  | dnsSetDisconnectedState
  | vpnShareOnConnected (adapter : String)
  | vpnShareOnDisconnected
  | loginRetry
  | invokeEmergencyConnectClickImpl
  | invokeEmergencyDisconnectClickImpl
  | invokeDisconnectClickImpl
  | locationsModelClear
  | signOutHelperSignOut
  | apiRemoveFromSettings
  | removeWireGuardSettings

/-- The Engine's mutable fields together with the collaborator state it reads. -/
structure EngineState where
  -- Engine member fields
  bInitialized : Bool
  locationId : LocationID
  connectionSettingsOverride : ConnectionSettings
  isBlockConnect : Bool
  isNeedReconnectAfterRequestAuth : Bool
  packetSize : PacketSize
  locationName : String
  engineSettings : EngineSettings
  firewallExceptions : FirewallExceptions
  -- the ConnectStateControllers' current states
  connectState : CONNECT_STATE
  emergencyConnectState : CONNECT_STATE
  -- the "senderSource" dynamic property set on the ConnectionManager
  senderSource : Option String
  -- collaborator state read by the Engine
  cmIsDisconnected : Bool
  cmIsAllowFirewallAfterConnection : Bool
  cmCurrentProtocol : Protocol
  cmIsStaticIpsLocation : Bool
  cmIsCustomOvpnConfigCurrentConnection : Bool
  cmVpnAdapterName : String
  cmLastConnectedIp : String
  cmCustomOvpnConfigFileName : String
  firewallState : Bool
  hasApiResourcesManager : Bool
  apiIsLoggedIn : Bool
  isIgnoreNoApiConnectivity : Bool
  helperPresent : Bool
  helperSendConnectStatusOk : Bool
  currentNetworkSsid : String
  locationDb : Nat → Option BaseLocationInfo
  -- ExtraConfig advanced parameters
  extraRemoteHost : Option String
  extraMtuOffsetWireguard : Option Int
  extraMtuOffsetIkev2 : Option Int
  -- host-classification and DNS used by addCustomRemoteIpToFirewallIfNeed
  isIpStr : String → Bool
  isDomainStr : String → Bool
  dnsLookup : String → Option String

/-- MTU_OFFSET_WG: default WireGuard header overhead subtracted from the
configured MTU (compile-time constant of the client). -/
def MTU_OFFSET_WG : Int := 80

/-- MTU_OFFSET_IKEV2: default IKEv2 header overhead subtracted from the
configured MTU (compile-time constant of the client). -/
def MTU_OFFSET_IKEV2 : Int := 80

/-- Engine::stopFetchingServerCredentials: disconnects the
serverCredentialsFetched signal when an ApiResourcesManager exists. -/
def stopFetchingServerCredentials (st : EngineState) : List Effect :=
  if st.hasApiResourcesManager then [Effect.disconnectServerCredentialsFetchedSignal] else []

/-- Engine::updateFirewallSettings: when the firewall is actually on, re-apply
the rules with the exception set appropriate for the current connect state. -/
def updateFirewallSettings (st : EngineState) : List Effect :=
  if st.firewallState then
    if st.connectState ≠ CONNECT_STATE.connected then
      [Effect.fwOn st.firewallExceptions.connectingIp false
        st.engineSettings.isAllowLanTraffic st.locationId.isCustomConfigsLocation]
    else
      [Effect.fwOn st.cmLastConnectedIp true
        st.engineSettings.isAllowLanTraffic st.locationId.isCustomConfigsLocation]
  else []

/-- The host-resolution part of Engine::addCustomRemoteIpToFirewallIfNeed:
an IP literal is used as-is; a domain is resolved through the blocking DNS
lookup with the detected IP recorded; anything else records an empty
detected IP. -/
def resolveCustomRemoteIp (st : EngineState) (strHost : String) :
    Option String × List Effect :=
  if st.isIpStr strHost then
    (some strHost, [])
  else if st.isDomainStr strHost then
    match st.dnsLookup strHost with
    | some r => (some r, [Effect.setDetectedIp r])
    | none => (none, [Effect.setDetectedIp ""])
  else
    (none, [Effect.setDetectedIp ""])

/-- Engine::addCustomRemoteIpToFirewallIfNeed. -/
def addCustomRemoteIpToFirewallIfNeed (st : EngineState) : EngineState × List Effect :=
  match st.extraRemoteHost with
  | none => (st, [])
  | some strHost =>
    let res := resolveCustomRemoteIp st strHost
    match res.1 with
    | none => (st, res.2)
    | some ip =>
      let bChanged := st.firewallExceptions.customRemoteIp ≠ some ip
      let st2 := { st with firewallExceptions :=
        { st.firewallExceptions with customRemoteIp := some ip } }
      if bChanged then (st2, res.2 ++ updateFirewallSettings st2) else (st2, res.2)

/-- Engine::doConnect: resolve the LocationID through the locations model,
fail with LOCATION_NOT_EXIST / LOCATION_NO_ACTIVE_NODES when the resolution
fails, otherwise hand the connect over to ConnectionManager::clickConnect. -/
def doConnect (st : EngineState) (bEmitAuthError : Bool) : EngineState × List Effect :=
  match st.locationDb st.locationId.ident with
  | none =>
    ({ st with connectState := CONNECT_STATE.disconnected },
     [Effect.ctrlSetDisconnected DISCONNECT_REASON.withError CONNECT_ERROR.locationNotExist,
      Effect.myIpGetIP 1])
  | some bli =>
    if !bli.isExistSelectedNode then
      ({ st with connectState := CONNECT_STATE.disconnected },
       [Effect.ctrlSetDisconnected DISCONNECT_REASON.withError CONNECT_ERROR.locationNoActiveNodes,
        Effect.myIpGetIP 1])
    else
      let st2 := { st with locationName := bli.name }
      if st2.hasApiResourcesManager then
        let connectionSettings :=
          if !st2.connectionSettingsOverride.isAutomatic then st2.connectionSettingsOverride
          else st2.engineSettings.connectionSettingsForNetwork st2.currentNetworkSsid
        (st2,
         [Effect.cmSetLastKnownGoodProtocol
            (st2.engineSettings.networkLastKnownGoodProtocol st2.currentNetworkSsid),
          Effect.cmClickConnect bEmitAuthError connectionSettings bli.locationId.ident])
      else
        (st2,
         [Effect.cmClickConnect bEmitAuthError
            (st2.engineSettings.connectionSettingsForNetwork st2.currentNetworkSsid)
            bli.locationId.ident])

/-- The tail of Engine::connectClickImpl past its two early returns:
whitelist a custom remote IP if configured, stop fetching server
credentials, apply the automatic enable-firewall-before-connection policy,
and run doConnect with auth-error emission enabled. -/
def connectClickProceed (st : EngineState) : EngineState × List Effect :=
  let r1 := addCustomRemoteIpToFirewallIfNeed st
  let st1 := r1.1
  let tr2 := stopFetchingServerCredentials st1
  let r3 :=
    if st1.engineSettings.firewallSettings.mode = FIREWALL_MODE.automatic ∧
       st1.engineSettings.firewallSettings.timing = FIREWALL_WHEN.beforeConnection then
      if !st1.firewallState then
        ({ st1 with firewallState := true },
         [Effect.fwOn st1.firewallExceptions.connectingIp false
            st1.engineSettings.isAllowLanTraffic st1.locationId.isCustomConfigsLocation,
          Effect.emitFirewallStateChanged true])
      else (st1, [])
    else (st1, [])
  let r4 := doConnect r3.1 true
  (r4.1, r1.2 ++ tr2 ++ r3.2 ++ r4.2)

/-- Engine::connectClickImpl. -/
def connectClickImpl (st : EngineState) (locationId : LocationID)
    (connectionSettings : ConnectionSettings) : EngineState × List Effect :=
  let st := { st with locationId := locationId,
                      connectionSettingsOverride := connectionSettings }
  -- if connected, then first disconnect
  if !st.cmIsDisconnected then
    ({ st with senderSource := some "reconnect" }, [Effect.cmClickDisconnect])
  else if st.isBlockConnect ∧ ¬st.locationId.isCustomConfigsLocation then
    ({ st with connectState := CONNECT_STATE.disconnected },
     [Effect.ctrlSetDisconnected DISCONNECT_REASON.withError CONNECT_ERROR.connectionBlocked,
      Effect.myIpGetIP 1])
  else
    connectClickProceed st

/-- Engine::disconnectClickImpl. -/
def disconnectClickImpl (st : EngineState) : EngineState × List Effect :=
  ({ st with senderSource := none },
   stopFetchingServerCredentials st ++ [Effect.cmClickDisconnect])

/-- Engine::disconnectClick (public command): only when initialized and the
current state is Connected or Connecting does it set Disconnecting and queue
disconnectClickImpl (embedded here as running it next on the queue). -/
def disconnectClick (st : EngineState) : EngineState × List Effect :=
  if st.bInitialized then
    if st.connectState = CONNECT_STATE.connected ∨ st.connectState = CONNECT_STATE.connecting then
      let st1 := { st with connectState := CONNECT_STATE.disconnecting }
      let r := disconnectClickImpl st1
      (r.1, Effect.ctrlSetDisconnecting :: r.2)
    else (st, [])
  else (st, [])

/-- Engine::emergencyConnectClick. -/
def emergencyConnectClick (st : EngineState) : EngineState × List Effect :=
  if st.bInitialized then
    ({ st with emergencyConnectState := CONNECT_STATE.connecting },
     [Effect.emergencyCtrlSetConnecting ⟨0, false, false⟩,
      Effect.invokeEmergencyConnectClickImpl])
  else
    ({ st with emergencyConnectState := CONNECT_STATE.disconnected },
     [Effect.emergencyCtrlSetDisconnected DISCONNECT_REASON.itself CONNECT_ERROR.noConnectError,
      Effect.emitEmergencyDisconnected])

/-- Engine::emergencyDisconnectClick. -/
def emergencyDisconnectClick (st : EngineState) : EngineState × List Effect :=
  if st.bInitialized then
    ({ st with emergencyConnectState := CONNECT_STATE.disconnecting },
     [Effect.emergencyCtrlSetDisconnecting,
      Effect.invokeEmergencyDisconnectClickImpl])
  else
    ({ st with emergencyConnectState := CONNECT_STATE.disconnected },
     [Effect.emergencyCtrlSetDisconnected DISCONNECT_REASON.itself CONNECT_ERROR.noConnectError,
      Effect.emitEmergencyDisconnected])

/-- Engine::doDisconnectRestoreStuff (Linux build): restore share/proxy/DNS
state, clear the interface-to-skip, clear the connecting-IP and DNS-server
firewall exceptions, re-apply the firewall rules when the firewall is on,
and retry login when still not logged in. -/
def doDisconnectRestoreStuff (st : EngineState) : EngineState × List Effect :=
  let tr1 := [Effect.vpnShareOnDisconnected, Effect.proxyEnable,
              Effect.dnsSetDisconnectedState, Effect.fwSetInterfaceToSkip ""]
  let st1 := { st with firewallExceptions :=
    { st.firewallExceptions with connectingIp := "", dnsServers := [] } }
  let tr2 :=
    if st1.firewallState then
      [Effect.fwOn st1.firewallExceptions.connectingIp false
        st1.engineSettings.isAllowLanTraffic st1.locationId.isCustomConfigsLocation]
    else []
  let tr3 :=
    if ¬st1.isIgnoreNoApiConnectivity ∧ st1.hasApiResourcesManager ∧ ¬st1.apiIsLoggedIn then
      [Effect.loginRetry]
    else []
  (st1, tr1 ++ tr2 ++ tr3)

/-- Engine::signOutImplAfterDisconnect (Linux build). -/
def signOutImplAfterDisconnect (st : EngineState) (keepFirewallOn : Bool) :
    EngineState × List Effect :=
  let tr1 := [Effect.locationsModelClear, Effect.fwEnableFirewallOnBoot false]
  let r2 :=
    if st.hasApiResourcesManager then
      ({ st with hasApiResourcesManager := false },
       [Effect.signOutHelperSignOut, Effect.apiRemoveFromSettings])
    else (st, ([] : List Effect))
  let tr3 := [Effect.removeWireGuardSettings]
  let r4 :=
    if ¬keepFirewallOn then
      ({ r2.1 with firewallState := false },
       [Effect.fwOff, Effect.emitFirewallStateChanged false])
    else (r2.1, ([] : List Effect))
  (r4.1, tr1 ++ r2.2 ++ tr3 ++ r4.2 ++ [Effect.emitSignOutFinished])

/-- The one-shot reset value the disconnect handler assigns to the
connection-settings override: Protocol(UNINITIALIZED), port 0, automatic. -/
def resetConnectionSettingsOverride : ConnectionSettings :=
  ⟨Protocol.uninitialized, 0, true⟩

/-- Engine::onConnectionManagerDisconnected (Linux build): delete static-IP
whitelist ports if needed, consume the one-shot senderSource tag, restore
the disconnect-side state, then branch on the consumed tag: pending
sign-out, pending reconnect (re-invoking connectClickImpl and returning
early), or the plain path (external-IP refresh plus automatic firewall-off
on user disconnect); except on the reconnect path, reset the one-time
connection-settings override and set the Disconnected state. -/
def onConnectionManagerDisconnected (st : EngineState) (reason : DISCONNECT_REASON) :
    EngineState × List Effect :=
  let tr0 := if st.cmIsStaticIpsLocation then [Effect.fwDeleteWhitelistPorts] else []
  let senderSource := st.senderSource.getD ""
  let st1 := { st with senderSource := none }
  let r1 := doDisconnectRestoreStuff st1
  if senderSource = "signOutImpl" then
    let r2 := signOutImplAfterDisconnect r1.1 false
    let st3 := { r2.1 with connectionSettingsOverride := resetConnectionSettingsOverride,
                           connectState := CONNECT_STATE.disconnected }
    (st3, tr0 ++ r1.2 ++ r2.2 ++
      [Effect.ctrlSetDisconnected reason CONNECT_ERROR.noConnectError])
  else if senderSource = "signOutImplKeepFirewallOn" then
    let r2 := signOutImplAfterDisconnect r1.1 true
    let st3 := { r2.1 with connectionSettingsOverride := resetConnectionSettingsOverride,
                           connectState := CONNECT_STATE.disconnected }
    (st3, tr0 ++ r1.2 ++ r2.2 ++
      [Effect.ctrlSetDisconnected reason CONNECT_ERROR.noConnectError])
  else if senderSource = "reconnect" then
    let r2 := connectClickImpl r1.1 r1.1.locationId r1.1.connectionSettingsOverride
    (r2.1, tr0 ++ r1.2 ++ r2.2)
  else
    let tr2 := [Effect.myIpGetIP 1]
    let r3 :=
      if reason = DISCONNECT_REASON.byUser ∧
         st.engineSettings.firewallSettings.mode = FIREWALL_MODE.automatic ∧
         r1.1.firewallState then
        ({ r1.1 with firewallState := false },
         [Effect.fwOff, Effect.emitFirewallStateChanged false])
      else (r1.1, ([] : List Effect))
    let st3 := { r3.1 with connectionSettingsOverride := resetConnectionSettingsOverride,
                           connectState := CONNECT_STATE.disconnected }
    (st3, tr0 ++ r1.2 ++ tr2 ++ r3.2 ++
      [Effect.ctrlSetDisconnected reason CONNECT_ERROR.noConnectError])

/-- The MTU the connected handler computes for the current protocol: the
configured MTU minus the WireGuard or IKEv2 header overhead, where an
ExtraConfig advanced parameter may override the default offset. -/
def mtuForProtocol (st : EngineState) : Int :=
  if st.cmCurrentProtocol.isWireGuardProtocol then
    st.packetSize.mtu - (st.extraMtuOffsetWireguard.getD MTU_OFFSET_WG)
  else
    st.packetSize.mtu - (st.extraMtuOffsetIkev2.getD MTU_OFFSET_IKEV2)

/-- Engine::onConnectionManagerConnected (Linux build). -/
def onConnectionManagerConnected (st : EngineState) : EngineState × List Effect :=
  let adapterName := st.cmVpnAdapterName
  let tr0 := [Effect.fwSetInterfaceToSkip adapterName]
  -- the automatic firewall block; r1.2.1 is isFirewallAlreadyEnabled
  let r1 : EngineState × Bool × List Effect :=
    if st.engineSettings.firewallSettings.mode = FIREWALL_MODE.automatic then
      if st.cmIsAllowFirewallAfterConnection ∧
         st.engineSettings.firewallSettings.timing = FIREWALL_WHEN.afterConnection then
        if !st.firewallState then
          ({ st with firewallState := true }, true,
           [Effect.fwOn st.cmLastConnectedIp true st.engineSettings.isAllowLanTraffic
              st.locationId.isCustomConfigsLocation,
            Effect.emitFirewallStateChanged true])
        else (st, false, [])
      else if ¬st.cmIsAllowFirewallAfterConnection ∧
              st.engineSettings.firewallSettings.timing = FIREWALL_WHEN.beforeConnection then
        if st.firewallState then
          ({ st with firewallState := false }, false,
           [Effect.fwOff, Effect.emitFirewallStateChanged false])
        else (st, false, [])
      else (st, false, [])
    else (st, false, [])
  let st1 := r1.1
  let tr2 := [Effect.helperSendConnectStatus true] ++
    (if !st.helperSendConnectStatusOk then [Effect.emitHelperSplitTunnelingStartFailed] else [])
  let tr3 :=
    if st1.firewallState ∧ ¬r1.2.1 then
      [Effect.fwOn st1.cmLastConnectedIp true st1.engineSettings.isAllowLanTraffic
        st1.locationId.isCustomConfigsLocation]
    else []
  let tr4 :=
    if st1.cmCurrentProtocol.isIkev2Protocol ∨ st1.cmCurrentProtocol.isWireGuardProtocol then
      if !st1.packetSize.isAutomatic then
        if mtuForProtocol st1 > 0 then
          [Effect.helperChangeMtu adapterName (mtuForProtocol st1)]
        else []
      else []
    else []
  let tr5 := if st1.cmIsStaticIpsLocation then [Effect.fwWhitelistPorts] else []
  let tr6 := [Effect.proxyDisable, Effect.dnsSetConnectedState]
  let tr7 := [Effect.vpnShareOnConnected adapterName]
  let st2 := { st1 with connectState := CONNECT_STATE.connected }
  let tr8 := [Effect.ctrlSetConnected st2.locationId, Effect.cmStartTunnelTests]
  let tr9 :=
    if st2.hasApiResourcesManager ∧ ¬st2.apiIsLoggedIn then [Effect.loginRetry] else []
  (st2, tr0 ++ r1.2.2 ++ tr2 ++ tr3 ++ tr4 ++ tr5 ++ tr6 ++ tr7 ++ tr8 ++ tr9)

/-- Engine::onConnectionManagerError (Linux build): the AUTH_ERROR and
PRIV_KEY_PASSWORD_ERROR recovery paths return early; every other error
falls through to a Disconnected-with-error state. -/
def onConnectionManagerError (st : EngineState) (err : CONNECT_ERROR) :
    EngineState × List Effect :=
  if err = CONNECT_ERROR.authError then
    let r1 := doDisconnectRestoreStuff st
    if r1.1.cmIsCustomOvpnConfigCurrentConnection then
      ({ r1.1 with isNeedReconnectAfterRequestAuth := true },
       r1.2 ++ [Effect.storageRemoveCredentials r1.1.cmCustomOvpnConfigFileName,
                Effect.emitRequestUsername])
    else
      if r1.1.hasApiResourcesManager then
        (r1.1, r1.2 ++ [Effect.apiFetchSession,
                        Effect.connectServerCredentialsFetchedSignal,
                        Effect.apiFetchServerCredentials])
      else (r1.1, r1.2)
  else if err = CONNECT_ERROR.privKeyPasswordError then
    let r1 := doDisconnectRestoreStuff st
    ({ r1.1 with isNeedReconnectAfterRequestAuth := true },
     r1.2 ++ [Effect.storageRemovePrivKeyPassword r1.1.cmCustomOvpnConfigFileName,
              Effect.emitRequestPrivKeyPassword])
  else
    ({ st with connectState := CONNECT_STATE.disconnected },
     [Effect.ctrlSetDisconnected DISCONNECT_REASON.withError err])

/-- Engine::onApiResourcesManagerServerCredentialsFetched: stop listening for
further credential fetches and re-run the connect sequence with auth-error
emission suppressed. -/
def onApiResourcesManagerServerCredentialsFetched (st : EngineState) :
    EngineState × List Effect :=
  let tr1 := stopFetchingServerCredentials st
  let r2 := doConnect st false
  (r2.1, tr1 ++ r2.2)

/-- Engine::continueWithUsernameAndPasswordImpl. -/
def continueWithUsernameAndPasswordImpl (st : EngineState)
    (username password : String) (bSave : Bool) : EngineState × List Effect :=
  -- if username and password is empty, then disconnect
  if username = "" ∧ password = "" then
    (st, [Effect.cmClickDisconnect])
  else
    let tr1 :=
      if bSave then
        [Effect.storageSetAuthCredentials st.cmCustomOvpnConfigFileName username password]
      else []
    (st, tr1 ++ [Effect.cmContinueWithUsernameAndPassword username password
      st.isNeedReconnectAfterRequestAuth])

/-- Engine::continueWithPasswordImpl. -/
def continueWithPasswordImpl (st : EngineState) (password : String) (bSave : Bool) :
    EngineState × List Effect :=
  if password = "" then
    (st, [Effect.cmClickDisconnect])
  else
    let tr1 :=
      if bSave then
        [Effect.storageSetAuthCredentials st.cmCustomOvpnConfigFileName "" password]
      else []
    (st, tr1 ++ [Effect.cmContinueWithPassword password st.isNeedReconnectAfterRequestAuth])

/-- Engine::continueWithPrivKeyPasswordImpl. -/
def continueWithPrivKeyPasswordImpl (st : EngineState) (password : String) (bSave : Bool) :
    EngineState × List Effect :=
  if password = "" then
    (st, [Effect.cmClickDisconnect])
  else
    let tr1 :=
      if bSave then
        [Effect.storageSetPrivKeyPassword st.cmCustomOvpnConfigFileName password]
      else []
    (st, tr1 ++ [Effect.cmContinueWithPrivKeyPassword password
      st.isNeedReconnectAfterRequestAuth])

/-- Engine::onNetworkChange: with a non-empty network/SSID, hand the
recomputed per-network ConnectionSettings to the ConnectionManager (with the
API port map when an ApiResourcesManager exists) and, only when a helper is
present and the connect state is Disconnected, refresh the default-adapter
snapshot sent to the helper; finally emit networkChanged. -/
def onNetworkChange (st : EngineState) (networkOrSsid : String) :
    EngineState × List Effect :=
  if networkOrSsid ≠ "" then
    let tr1 := [Effect.cmUpdateConnectionSettings
      (st.engineSettings.connectionSettingsForNetwork networkOrSsid)
      st.hasApiResourcesManager]
    let tr2 :=
      if st.helperPresent ∧ st.connectState = CONNECT_STATE.disconnected then
        [Effect.helperSendConnectStatus false]
      else []
    (st, tr1 ++ tr2 ++ [Effect.emitNetworkChanged])
  else
    (st, [Effect.emitNetworkChanged])

/-- Classifier: is this effect a ConnectionManager::clickConnect call? -/
def Effect.isClickConnect : Effect → Bool
  | .cmClickConnect _ _ _ => true
  | _ => false

/-- Classifier: is this effect a ConnectionManager::clickDisconnect call? -/
def Effect.isClickDisconnect : Effect → Bool
  | .cmClickDisconnect => true
  | _ => false

/-- Classifier: is this effect a setDisconnectedState call on the primary
ConnectStateController? -/
def Effect.isCtrlDisconnectedCall : Effect → Bool
  | .ctrlSetDisconnected _ _ => true
  | _ => false

/-- Classifier: is this effect any mutator call on the primary
ConnectStateController? -/
def Effect.isPrimaryCtrlCall : Effect → Bool
  | .ctrlSetConnecting _ => true
  | .ctrlSetConnected _ => true
  | .ctrlSetDisconnecting => true
  | .ctrlSetDisconnected _ _ => true
  | _ => false

/-- Classifier: is this effect a Helper::changeMtu call? -/
def Effect.isChangeMtu : Effect → Bool
  | .helperChangeMtu _ _ => true
  | _ => false

/-- Classifier: the `firewallStateChanged(true)` emission that accompanies
exactly the two automatic firewall-enable actions of the connect flow. -/
def Effect.isFirewallEnabledEmit : Effect → Bool
  | .emitFirewallStateChanged b => b
  | _ => false

/-- A fixed EngineSettings value used to build concrete witness states. -/
def baseEngineSettings : EngineSettings where
  firewallSettings := ⟨FIREWALL_MODE.manual, FIREWALL_WHEN.beforeConnection⟩
  isAllowLanTraffic := false
  isTerminateSockets := false
  connectionSettingsForNetwork := fun _ => ⟨Protocol.openvpn, 443, true⟩
  networkLastKnownGoodProtocol := fun _ => Protocol.openvpn

/-- A concrete ordinary location used by witnesses. -/
def locA : LocationID := ⟨1, false, false⟩

/-- A second concrete ordinary location used by witnesses. -/
def locB : LocationID := ⟨2, false, false⟩

/-- A concrete engine state used to instantiate the theorems on explicit
inputs: initialized, disconnected, logged in, no extra-config overrides. -/
def baseState : EngineState where
  bInitialized := true
  locationId := locA
  connectionSettingsOverride := ⟨Protocol.uninitialized, 0, true⟩
  isBlockConnect := false
  isNeedReconnectAfterRequestAuth := false
  packetSize := ⟨true, 1500⟩
  locationName := ""
  engineSettings := baseEngineSettings
  firewallExceptions := ⟨"", [], none⟩
  connectState := CONNECT_STATE.disconnected
  emergencyConnectState := CONNECT_STATE.disconnected
  senderSource := none
  cmIsDisconnected := true
  cmIsAllowFirewallAfterConnection := true
  cmCurrentProtocol := Protocol.openvpn
  cmIsStaticIpsLocation := false
  cmIsCustomOvpnConfigCurrentConnection := false
  cmVpnAdapterName := "tun0"
  cmLastConnectedIp := ""
  cmCustomOvpnConfigFileName := ""
  firewallState := false
  hasApiResourcesManager := true
  apiIsLoggedIn := true
  isIgnoreNoApiConnectivity := false
  helperPresent := true
  helperSendConnectStatusOk := true
  currentNetworkSsid := "wifi"
  locationDb := fun n => if n = 2 then some ⟨locB, true, "B"⟩ else none
  extraRemoteHost := none
  extraMtuOffsetWireguard := none
  extraMtuOffsetIkev2 := none
  isIpStr := fun _ => false
  isDomainStr := fun _ => false
  dnsLookup := fun _ => none

/-- C5: a connect sequence whose LocationID does not resolve ends Disconnected
with LOCATION_NOT_EXIST; one that resolves without a selected node ends
Disconnected with LOCATION_NO_ACTIVE_NODES; both trigger exactly one
external-IP refresh, never call ConnectionManager::clickConnect, and attempt
nothing else. -/
theorem doConnect_location_errors (st : EngineState) (b : Bool) :
    (st.locationDb st.locationId.ident = none →
      doConnect st b = ({ st with connectState := CONNECT_STATE.disconnected },
        [Effect.ctrlSetDisconnected DISCONNECT_REASON.withError CONNECT_ERROR.locationNotExist,
         Effect.myIpGetIP 1])) ∧
    (∀ bli : BaseLocationInfo, st.locationDb st.locationId.ident = some bli →
      bli.isExistSelectedNode = false →
      doConnect st b = ({ st with connectState := CONNECT_STATE.disconnected },
        [Effect.ctrlSetDisconnected DISCONNECT_REASON.withError CONNECT_ERROR.locationNoActiveNodes,
         Effect.myIpGetIP 1])) := by
  constructor
  · intro h
    simp [doConnect, h]
  · intro bli h hsel
    simp [doConnect, h, hsel]

/-- Witness for C5 at concrete inputs: location ident 3 is absent from the
base state's location model, and a state whose location resolves to a node-less
location fails with LOCATION_NO_ACTIVE_NODES. -/
theorem doConnect_location_errors_witness :
    (doConnect { baseState with locationId := ⟨3, false, false⟩ } true =
      ({ { baseState with locationId := ⟨3, false, false⟩ } with
          connectState := CONNECT_STATE.disconnected },
       [Effect.ctrlSetDisconnected DISCONNECT_REASON.withError CONNECT_ERROR.locationNotExist,
        Effect.myIpGetIP 1])) ∧
    (doConnect { baseState with
        locationDb := fun n => if n = 1 then some ⟨locA, false, "A"⟩ else none } true =
      ({ { baseState with
            locationDb := fun n => if n = 1 then some ⟨locA, false, "A"⟩ else none } with
          connectState := CONNECT_STATE.disconnected },
       [Effect.ctrlSetDisconnected DISCONNECT_REASON.withError CONNECT_ERROR.locationNoActiveNodes,
        Effect.myIpGetIP 1])) := by
  refine ⟨(doConnect_location_errors _ true).1 (by simp [baseState]), ?_⟩
  exact (doConnect_location_errors _ true).2 ⟨locA, false, "A"⟩ (by simp [baseState, locA]) rfl

/-- C7: calling disconnectClick while the connect state is neither Connected
nor Connecting is a complete no-op: the state is unchanged and no call or
emission of any kind is made. -/
theorem disconnectClick_noop (st : EngineState)
    (h1 : st.connectState ≠ CONNECT_STATE.connected)
    (h2 : st.connectState ≠ CONNECT_STATE.connecting) :
    disconnectClick st = (st, []) := by
  simp [disconnectClick, h1, h2]

/-- Witness for C7: the base state is Disconnected, and disconnectClick does
nothing to it. -/
theorem disconnectClick_noop_witness :
    baseState.connectState = CONNECT_STATE.disconnected ∧
    disconnectClick baseState = (baseState, []) := by
  exact ⟨rfl, disconnectClick_noop baseState (by decide) (by decide)⟩

/-- C10: emergencyConnectClick and emergencyDisconnectClick invoked before the
Engine is initialized start no emergency work: each sets the emergency
controller directly to Disconnected with reason DISCONNECTED_ITSELF and no
error, and emits emergencyDisconnected. -/
theorem emergencyClicks_before_init (st : EngineState)
    (h : st.bInitialized = false) :
    emergencyConnectClick st =
      ({ st with emergencyConnectState := CONNECT_STATE.disconnected },
       [Effect.emergencyCtrlSetDisconnected DISCONNECT_REASON.itself CONNECT_ERROR.noConnectError,
        Effect.emitEmergencyDisconnected]) ∧
    emergencyDisconnectClick st =
      ({ st with emergencyConnectState := CONNECT_STATE.disconnected },
       [Effect.emergencyCtrlSetDisconnected DISCONNECT_REASON.itself CONNECT_ERROR.noConnectError,
        Effect.emitEmergencyDisconnected]) := by
  constructor
  · simp [emergencyConnectClick, h]
  · simp [emergencyDisconnectClick, h]

/-- Witness for C10 at the concrete uninitialized base state. -/
theorem emergencyClicks_before_init_witness :
    emergencyConnectClick { baseState with bInitialized := false } =
      ({ { baseState with bInitialized := false } with
          emergencyConnectState := CONNECT_STATE.disconnected },
       [Effect.emergencyCtrlSetDisconnected DISCONNECT_REASON.itself CONNECT_ERROR.noConnectError,
        Effect.emitEmergencyDisconnected]) :=
  (emergencyClicks_before_init { baseState with bInitialized := false } rfl).1

/-- C8: each credential-continuation handler interprets an empty credential as
a user cancel and calls ConnectionManager::clickDisconnect instead of
resuming; a non-empty credential resumes the attempt, storing the credential
first when the save flag is set. For the username-and-password handler the
supplied credential is the pair, empty when both parts are empty. -/
theorem continueWith_empty_cancels (st : EngineState) :
    (∀ bSave : Bool,
      continueWithUsernameAndPasswordImpl st "" "" bSave = (st, [Effect.cmClickDisconnect]) ∧
      continueWithPasswordImpl st "" bSave = (st, [Effect.cmClickDisconnect]) ∧
      continueWithPrivKeyPasswordImpl st "" bSave = (st, [Effect.cmClickDisconnect])) ∧
    (∀ (username password : String) (bSave : Bool), ¬(username = "" ∧ password = "") →
      continueWithUsernameAndPasswordImpl st username password bSave =
        (st, (if bSave then
                [Effect.storageSetAuthCredentials st.cmCustomOvpnConfigFileName username password]
              else []) ++
             [Effect.cmContinueWithUsernameAndPassword username password
                st.isNeedReconnectAfterRequestAuth])) ∧
    (∀ (password : String) (bSave : Bool), password ≠ "" →
      continueWithPasswordImpl st password bSave =
        (st, (if bSave then
                [Effect.storageSetAuthCredentials st.cmCustomOvpnConfigFileName "" password]
              else []) ++
             [Effect.cmContinueWithPassword password st.isNeedReconnectAfterRequestAuth])) ∧
    (∀ (password : String) (bSave : Bool), password ≠ "" →
      continueWithPrivKeyPasswordImpl st password bSave =
        (st, (if bSave then
                [Effect.storageSetPrivKeyPassword st.cmCustomOvpnConfigFileName password]
              else []) ++
             [Effect.cmContinueWithPrivKeyPassword password
                st.isNeedReconnectAfterRequestAuth])) := by
  refine ⟨fun bSave => ⟨?_, ?_, ?_⟩, fun u p bSave h => ?_, fun p bSave h => ?_,
    fun p bSave h => ?_⟩
  · simp [continueWithUsernameAndPasswordImpl]
  · simp [continueWithPasswordImpl]
  · simp [continueWithPrivKeyPasswordImpl]
  · simp [continueWithUsernameAndPasswordImpl, h]
  · simp [continueWithPasswordImpl, h]
  · simp [continueWithPrivKeyPasswordImpl, h]

/-- Witness for C8 at concrete inputs: empty credentials cancel via
clickDisconnect, and a non-empty username/password pair resumes with the
credentials stored. -/
theorem continueWith_empty_cancels_witness :
    continueWithUsernameAndPasswordImpl baseState "" "" true =
      (baseState, [Effect.cmClickDisconnect]) ∧
    continueWithUsernameAndPasswordImpl baseState "user" "pw" true =
      (baseState, [Effect.storageSetAuthCredentials "" "user" "pw",
                   Effect.cmContinueWithUsernameAndPassword "user" "pw" false]) := by
  constructor
  · exact ((continueWith_empty_cancels baseState).1 true).1
  · have h := (continueWith_empty_cancels baseState).2.1 "user" "pw" true (by simp)
    simpa [baseState] using h

/-- C9: a network-interface change with a non-empty network/SSID only hands the
recomputed per-network ConnectionSettings to the ConnectionManager and, solely
when the connect state is Disconnected (and a helper exists), refreshes the
default-adapter snapshot; the engine state is unchanged, no connect-state
controller call is made, and no connect or disconnect is issued. -/
theorem onNetworkChange_passive (st : EngineState) (ssid : String) (h : ssid ≠ "") :
    onNetworkChange st ssid =
      (st, [Effect.cmUpdateConnectionSettings
              (st.engineSettings.connectionSettingsForNetwork ssid)
              st.hasApiResourcesManager] ++
           (if st.helperPresent ∧ st.connectState = CONNECT_STATE.disconnected then
              [Effect.helperSendConnectStatus false]
            else []) ++
           [Effect.emitNetworkChanged]) ∧
    (onNetworkChange st ssid).1 = st ∧
    (onNetworkChange st ssid).2.countP Effect.isPrimaryCtrlCall = 0 ∧
    (onNetworkChange st ssid).2.countP Effect.isClickDisconnect = 0 ∧
    (onNetworkChange st ssid).2.countP Effect.isClickConnect = 0 := by
  have h1 : onNetworkChange st ssid =
      (st, [Effect.cmUpdateConnectionSettings
              (st.engineSettings.connectionSettingsForNetwork ssid)
              st.hasApiResourcesManager] ++
           (if st.helperPresent ∧ st.connectState = CONNECT_STATE.disconnected then
              [Effect.helperSendConnectStatus false]
            else []) ++
           [Effect.emitNetworkChanged]) := by
    simp only [onNetworkChange, if_pos h]
  refine ⟨h1, by rw [h1], ?_, ?_, ?_⟩ <;>
    rw [h1] <;>
    simp [List.countP_append, apply_ite (List.countP Effect.isPrimaryCtrlCall),
      apply_ite (List.countP Effect.isClickDisconnect),
      apply_ite (List.countP Effect.isClickConnect),
      Effect.isPrimaryCtrlCall, Effect.isClickDisconnect, Effect.isClickConnect]

/-- Witness for C9: a concrete SSID change on the disconnected base state. -/
theorem onNetworkChange_passive_witness :
    onNetworkChange baseState "office" =
      (baseState, [Effect.cmUpdateConnectionSettings ⟨Protocol.openvpn, 443, true⟩ true,
                   Effect.helperSendConnectStatus false,
                   Effect.emitNetworkChanged]) := by
  have h := (onNetworkChange_passive baseState "office" (by simp)).1
  simpa [baseState, baseEngineSettings] using h

/-- Helper: addCustomRemoteIpToFirewallIfNeed never reads the block-connect
flag; its outcome carries the flag through unchanged. -/
theorem addCustom_isBlockConnect (st : EngineState) (b : Bool) :
    addCustomRemoteIpToFirewallIfNeed { st with isBlockConnect := b } =
      ({ (addCustomRemoteIpToFirewallIfNeed st).1 with isBlockConnect := b },
       (addCustomRemoteIpToFirewallIfNeed st).2) := by
  unfold addCustomRemoteIpToFirewallIfNeed
  cases h : st.extraRemoteHost
  · simp [h]
  · simp only [resolveCustomRemoteIp, updateFirewallSettings]
    split
    · split <;> simp [h]
    · split
      · cases hd : st.dnsLookup _ <;> simp [h]
      · simp [h]

/-- Helper: doConnect never reads the block-connect flag. -/
theorem doConnect_isBlockConnect (s : EngineState) (b : Bool) (flag : Bool) :
    doConnect { s with isBlockConnect := b } flag =
      ({ (doConnect s flag).1 with isBlockConnect := b }, (doConnect s flag).2) := by
  unfold doConnect
  cases h : s.locationDb s.locationId.ident
  · simp [h]
  · simp only [h]
    split
    · simp [h]
    · split <;> simp [h]

/-- Helper: doConnect never reads the block-connect flag (variant for the
state produced by the enable-firewall-before-connection action). -/
theorem doConnect_isBlockConnect_fw (s : EngineState) (b : Bool) :
    doConnect { s with isBlockConnect := b, firewallState := true } true =
      ({ (doConnect { s with firewallState := true } true).1 with isBlockConnect := b },
       (doConnect { s with firewallState := true } true).2) := by
  unfold doConnect
  cases h : s.locationDb s.locationId.ident
  · simp [h]
  · simp only [h]
    split
    · simp [h]
    · split <;> simp [h]

/-- Helper: the proceed path of connectClickImpl never reads the
block-connect flag. -/
theorem proceed_isBlockConnect (st : EngineState) (b : Bool) :
    connectClickProceed { st with isBlockConnect := b } =
      ({ (connectClickProceed st).1 with isBlockConnect := b },
       (connectClickProceed st).2) := by
  unfold connectClickProceed
  simp only [addCustom_isBlockConnect, stopFetchingServerCredentials]
  generalize addCustomRemoteIpToFirewallIfNeed st = R
  obtain ⟨A, tr⟩ := R
  split
  · split
    · rw [doConnect_isBlockConnect_fw]
    · rw [doConnect_isBlockConnect]
  · rw [doConnect_isBlockConnect]

/-- Helper: for a custom-config location connectClickImpl never reads the
block-connect flag. -/
theorem connImpl_isBlockConnect (st : EngineState) (loc : LocationID)
    (cs : ConnectionSettings) (b : Bool) (hloc : loc.isCustomConfigs = true) :
    connectClickImpl { st with isBlockConnect := b } loc cs =
      ({ (connectClickImpl st loc cs).1 with isBlockConnect := b },
       (connectClickImpl st loc cs).2) := by
  unfold connectClickImpl
  simp only [LocationID.isCustomConfigsLocation, hloc, not_true, and_false, if_false]
  split
  · simp
  · rw [proceed_isBlockConnect { st with locationId := loc, connectionSettingsOverride := cs } b]

/-- C3: with the block-connect flag set and a non-custom-config location, the
connect sequence (entered with the manager disconnected) performs nothing but
a Disconnected(CONNECTION_BLOCKED) transition and one external-IP refresh;
for a custom-config location the flag has no effect: the run with the flag
set equals the run with the flag clear. -/
theorem connectClick_blockConnect (st : EngineState) (loc : LocationID)
    (cs : ConnectionSettings) :
    (st.cmIsDisconnected = true → st.isBlockConnect = true → loc.isCustomConfigs = false →
      connectClickImpl st loc cs =
        ({ st with locationId := loc, connectionSettingsOverride := cs,
                   connectState := CONNECT_STATE.disconnected },
         [Effect.ctrlSetDisconnected DISCONNECT_REASON.withError CONNECT_ERROR.connectionBlocked,
          Effect.myIpGetIP 1])) ∧
    (loc.isCustomConfigs = true →
      (connectClickImpl { st with isBlockConnect := true } loc cs).2 =
        (connectClickImpl { st with isBlockConnect := false } loc cs).2 ∧
      (connectClickImpl { st with isBlockConnect := true } loc cs).1 =
        { (connectClickImpl { st with isBlockConnect := false } loc cs).1 with
            isBlockConnect := true }) := by
  constructor
  · intro hcm hb hloc
    unfold connectClickImpl
    simp [hcm, hb, hloc, LocationID.isCustomConfigsLocation]
  · intro hloc
    rw [connImpl_isBlockConnect st loc cs true hloc,
        connImpl_isBlockConnect st loc cs false hloc]
    constructor
    · rfl
    · simp

/-- Witness for C3: on the concrete base state with the flag set, connecting
to the ordinary location locA is immediately blocked, while connecting to a
custom-config location proceeds identically with the flag set or clear. -/
theorem connectClick_blockConnect_witness :
    (connectClickImpl { baseState with isBlockConnect := true } locA
        ⟨Protocol.uninitialized, 0, true⟩ =
      ({ baseState with
          isBlockConnect := true
          locationId := locA
          connectionSettingsOverride := ⟨Protocol.uninitialized, 0, true⟩
          connectState := CONNECT_STATE.disconnected },
       [Effect.ctrlSetDisconnected DISCONNECT_REASON.withError CONNECT_ERROR.connectionBlocked,
        Effect.myIpGetIP 1])) ∧
    (connectClickImpl { baseState with isBlockConnect := true } ⟨5, true, false⟩
        ⟨Protocol.uninitialized, 0, true⟩).2 =
      (connectClickImpl { baseState with isBlockConnect := false } ⟨5, true, false⟩
        ⟨Protocol.uninitialized, 0, true⟩).2 := by
  constructor
  · exact (connectClick_blockConnect { baseState with isBlockConnect := true } locA
      ⟨Protocol.uninitialized, 0, true⟩).1 rfl rfl rfl
  · exact ((connectClick_blockConnect baseState ⟨5, true, false⟩
      ⟨Protocol.uninitialized, 0, true⟩).2 rfl).1

/-- Helper: the state component of doDisconnectRestoreStuff. -/
theorem ddrs_fst (st : EngineState) :
    (doDisconnectRestoreStuff st).1 =
      { st with firewallExceptions :=
        { st.firewallExceptions with connectingIp := "", dnsServers := [] } } := rfl

/-- Helper: the disconnect-side restore never calls setDisconnectedState. -/
theorem ddrs_no_ctrlDisc (st : EngineState) :
    ((doDisconnectRestoreStuff st).2).countP Effect.isCtrlDisconnectedCall = 0 := by
  unfold doDisconnectRestoreStuff
  simp [List.countP_append, apply_ite (List.countP Effect.isCtrlDisconnectedCall),
    Effect.isCtrlDisconnectedCall, List.countP_cons]

/-- Helper: every clickConnect doConnect issues carries its emitAuthError
argument. -/
theorem doConnect_authFlag (st : EngineState) (flag : Bool) :
    ∀ e ∈ (doConnect st flag).2, Effect.isClickConnect e = true →
      ∃ s l, e = Effect.cmClickConnect flag s l := by
  intro e he hcc
  unfold doConnect at he
  cases h : st.locationDb st.locationId.ident <;> simp only [h] at he
  · simp only [List.mem_cons, List.not_mem_nil, or_false] at he
    rcases he with rfl | rfl <;> simp [Effect.isClickConnect] at hcc
  · split at he
    · simp only [List.mem_cons, List.not_mem_nil, or_false] at he
      rcases he with rfl | rfl <;> simp [Effect.isClickConnect] at hcc
    · split at he
      · simp only [List.mem_cons, List.not_mem_nil, or_false] at he
        rcases he with rfl | rfl
        · simp [Effect.isClickConnect] at hcc
        · exact ⟨_, _, rfl⟩
      · simp only [List.mem_cons, List.not_mem_nil, or_false] at he
        subst he
        exact ⟨_, _, rfl⟩

/-- C4: on an AUTH_ERROR the Engine restores the disconnect-side state first;
a custom-config connection drops its cached credentials and asks the UI for
fresh ones, an account-based connection refetches the session and the server
credentials and, on the fetched event, re-runs doConnect with auth-error
emission suppressed; no setDisconnectedState call is made on this path. -/
theorem authError_recovery (st : EngineState) :
    (st.cmIsCustomOvpnConfigCurrentConnection = true →
      onConnectionManagerError st CONNECT_ERROR.authError =
        ({ (doDisconnectRestoreStuff st).1 with isNeedReconnectAfterRequestAuth := true },
         (doDisconnectRestoreStuff st).2 ++
           [Effect.storageRemoveCredentials st.cmCustomOvpnConfigFileName,
            Effect.emitRequestUsername])) ∧
    (st.cmIsCustomOvpnConfigCurrentConnection = false → st.hasApiResourcesManager = true →
      onConnectionManagerError st CONNECT_ERROR.authError =
        ((doDisconnectRestoreStuff st).1,
         (doDisconnectRestoreStuff st).2 ++
           [Effect.apiFetchSession, Effect.connectServerCredentialsFetchedSignal,
            Effect.apiFetchServerCredentials])) ∧
    ((onConnectionManagerError st CONNECT_ERROR.authError).2.countP
        Effect.isCtrlDisconnectedCall = 0) ∧
    ((onApiResourcesManagerServerCredentialsFetched st).2 =
        stopFetchingServerCredentials st ++ (doConnect st false).2) ∧
    (∀ e ∈ (onApiResourcesManagerServerCredentialsFetched st).2,
       Effect.isClickConnect e = true →
         ∃ s l, e = Effect.cmClickConnect false s l) := by
  refine ⟨?_, ?_, ?_, rfl, ?_⟩
  · intro hc
    simp [onConnectionManagerError, ddrs_fst, hc]
  · intro hc hapi
    simp [onConnectionManagerError, ddrs_fst, hc, hapi]
  · by_cases hc : st.cmIsCustomOvpnConfigCurrentConnection = true
    · simp [onConnectionManagerError, ddrs_fst, hc, List.countP_append,
        ddrs_no_ctrlDisc, Effect.isCtrlDisconnectedCall]
    · by_cases hapi : st.hasApiResourcesManager = true <;>
        simp [onConnectionManagerError, ddrs_fst, hc, hapi, List.countP_append,
          ddrs_no_ctrlDisc, Effect.isCtrlDisconnectedCall]
  · intro e he hcc
    unfold onApiResourcesManagerServerCredentialsFetched at he
    simp only [List.mem_append] at he
    rcases he with he | he
    · unfold stopFetchingServerCredentials at he
      split at he <;> simp at he
      subst he
      simp [Effect.isClickConnect] at hcc
    · exact doConnect_authFlag st false e he hcc


/-- Witness for C4: the custom-config branch of the auth-error handler on a
concrete state. -/
theorem authError_recovery_witness :
    onConnectionManagerError { baseState with cmIsCustomOvpnConfigCurrentConnection := true }
        CONNECT_ERROR.authError =
      ({ baseState with
          cmIsCustomOvpnConfigCurrentConnection := true
          isNeedReconnectAfterRequestAuth := true },
       [Effect.vpnShareOnDisconnected, Effect.proxyEnable, Effect.dnsSetDisconnectedState,
        Effect.fwSetInterfaceToSkip "", Effect.storageRemoveCredentials "",
        Effect.emitRequestUsername]) := by
  have h := (authError_recovery
    { baseState with cmIsCustomOvpnConfigCurrentConnection := true }).1 rfl
  simpa [doDisconnectRestoreStuff, baseState] using h

/-- C6: in the connected handler, a Helper::changeMtu call happens exactly when
the protocol is IKEv2 or WireGuard, packet size is not automatic, and the
configured MTU minus the protocol-specific header overhead is positive, and
then the applied MTU is that difference on the VPN adapter; with automatic
packet sizing no MTU change is applied. -/
theorem connected_mtu (st : EngineState) :
    ((onConnectionManagerConnected st).2.filter Effect.isChangeMtu) =
      (if (st.cmCurrentProtocol.isIkev2Protocol ∨ st.cmCurrentProtocol.isWireGuardProtocol) ∧
          st.packetSize.isAutomatic = false ∧ mtuForProtocol st > 0 then
        [Effect.helperChangeMtu st.cmVpnAdapterName (mtuForProtocol st)]
      else []) ∧
    (st.packetSize.isAutomatic = true →
      (onConnectionManagerConnected st).2.countP Effect.isChangeMtu = 0) := by
  have h1 : ((onConnectionManagerConnected st).2.filter Effect.isChangeMtu) =
      (if (st.cmCurrentProtocol.isIkev2Protocol ∨ st.cmCurrentProtocol.isWireGuardProtocol) ∧
          st.packetSize.isAutomatic = false ∧ mtuForProtocol st > 0 then
        [Effect.helperChangeMtu st.cmVpnAdapterName (mtuForProtocol st)]
      else []) := by
    unfold onConnectionManagerConnected mtuForProtocol
    simp [List.filter_append, apply_ite (List.filter Effect.isChangeMtu),
      apply_ite Prod.fst, apply_ite Prod.snd,
      apply_ite EngineState.cmCurrentProtocol, apply_ite EngineState.packetSize,
      apply_ite EngineState.extraMtuOffsetWireguard, apply_ite EngineState.extraMtuOffsetIkev2,
      apply_ite EngineState.cmVpnAdapterName,
      Effect.isChangeMtu, ite_self]
    split_ifs <;> simp_all
  refine ⟨h1, fun hauto => ?_⟩
  rw [List.countP_eq_length_filter, h1]
  simp [hauto]

/-- Witness for C6: a WireGuard connection with explicit MTU 1420 gets
1420 - 80 applied; the automatic-packet-size base state gets no MTU call. -/
theorem connected_mtu_witness :
    ((onConnectionManagerConnected { baseState with
        cmCurrentProtocol := Protocol.wireGuard
        packetSize := ⟨false, 1420⟩ }).2.filter Effect.isChangeMtu) =
      [Effect.helperChangeMtu "tun0" 1340] ∧
    (onConnectionManagerConnected baseState).2.countP Effect.isChangeMtu = 0 := by
  constructor
  · have h := (connected_mtu { baseState with
      cmCurrentProtocol := Protocol.wireGuard
      packetSize := ⟨false, 1420⟩ }).1
    simpa [baseState, mtuForProtocol, Protocol.isWireGuardProtocol,
      Protocol.isIkev2Protocol, MTU_OFFSET_WG] using h
  · exact (connected_mtu baseState).2 rfl

lemma addCustom_senderSource (st : EngineState) :
    (addCustomRemoteIpToFirewallIfNeed st).1.senderSource = st.senderSource := by
  unfold addCustomRemoteIpToFirewallIfNeed
  cases h : st.extraRemoteHost
  · rfl
  · simp only [resolveCustomRemoteIp, updateFirewallSettings]
    split
    · rfl
    · split <;> rfl

lemma addCustom_engineSettings (st : EngineState) :
    (addCustomRemoteIpToFirewallIfNeed st).1.engineSettings = st.engineSettings := by
  unfold addCustomRemoteIpToFirewallIfNeed
  cases h : st.extraRemoteHost
  · rfl
  · simp only [resolveCustomRemoteIp, updateFirewallSettings]
    split
    · rfl
    · split <;> rfl

lemma addCustom_firewallState (st : EngineState) :
    (addCustomRemoteIpToFirewallIfNeed st).1.firewallState = st.firewallState := by
  unfold addCustomRemoteIpToFirewallIfNeed
  cases h : st.extraRemoteHost
  · rfl
  · simp only [resolveCustomRemoteIp, updateFirewallSettings]
    split
    · rfl
    · split <;> rfl

lemma addCustom_locationId (st : EngineState) :
    (addCustomRemoteIpToFirewallIfNeed st).1.locationId = st.locationId := by
  unfold addCustomRemoteIpToFirewallIfNeed
  cases h : st.extraRemoteHost
  · rfl
  · simp only [resolveCustomRemoteIp, updateFirewallSettings]
    split
    · rfl
    · split <;> rfl

lemma addCustom_locationDb (st : EngineState) :
    (addCustomRemoteIpToFirewallIfNeed st).1.locationDb = st.locationDb := by
  unfold addCustomRemoteIpToFirewallIfNeed
  cases h : st.extraRemoteHost
  · rfl
  · simp only [resolveCustomRemoteIp, updateFirewallSettings]
    split
    · rfl
    · split <;> rfl

lemma addCustom_hasApiResourcesManager (st : EngineState) :
    (addCustomRemoteIpToFirewallIfNeed st).1.hasApiResourcesManager = st.hasApiResourcesManager := by
  unfold addCustomRemoteIpToFirewallIfNeed
  cases h : st.extraRemoteHost
  · rfl
  · simp only [resolveCustomRemoteIp, updateFirewallSettings]
    split
    · rfl
    · split <;> rfl

lemma addCustom_connectionSettingsOverride (st : EngineState) :
    (addCustomRemoteIpToFirewallIfNeed st).1.connectionSettingsOverride = st.connectionSettingsOverride := by
  unfold addCustomRemoteIpToFirewallIfNeed
  cases h : st.extraRemoteHost
  · rfl
  · simp only [resolveCustomRemoteIp, updateFirewallSettings]
    split
    · rfl
    · split <;> rfl

lemma addCustom_currentNetworkSsid (st : EngineState) :
    (addCustomRemoteIpToFirewallIfNeed st).1.currentNetworkSsid = st.currentNetworkSsid := by
  unfold addCustomRemoteIpToFirewallIfNeed
  cases h : st.extraRemoteHost
  · rfl
  · simp only [resolveCustomRemoteIp, updateFirewallSettings]
    split
    · rfl
    · split <;> rfl

lemma addCustom_cmIsDisconnected (st : EngineState) :
    (addCustomRemoteIpToFirewallIfNeed st).1.cmIsDisconnected = st.cmIsDisconnected := by
  unfold addCustomRemoteIpToFirewallIfNeed
  cases h : st.extraRemoteHost
  · rfl
  · simp only [resolveCustomRemoteIp, updateFirewallSettings]
    split
    · rfl
    · split <;> rfl

lemma addCustom_effects (st : EngineState) :
    ∀ e ∈ (addCustomRemoteIpToFirewallIfNeed st).2,
      Effect.isClickConnect e = false ∧ Effect.isClickDisconnect e = false ∧
      Effect.isFirewallEnabledEmit e = false ∧ Effect.isCtrlDisconnectedCall e = false ∧
      Effect.isPrimaryCtrlCall e = false := by
  intro e he
  unfold addCustomRemoteIpToFirewallIfNeed resolveCustomRemoteIp updateFirewallSettings at he
  cases h : st.extraRemoteHost <;> simp only [h] at he
  · simp at he
  · repeat' split at he
    all_goals simp_all [Effect.isClickConnect, Effect.isClickDisconnect,
      Effect.isFirewallEnabledEmit, Effect.isCtrlDisconnectedCall,
      Effect.isPrimaryCtrlCall]
    all_goals (rcases he with rfl | rfl <;> exact ⟨rfl, rfl, rfl, rfl, rfl⟩)

lemma ddrs_effects (st : EngineState) :
    ∀ e ∈ (doDisconnectRestoreStuff st).2,
      Effect.isClickConnect e = false ∧ Effect.isClickDisconnect e = false ∧
      Effect.isFirewallEnabledEmit e = false ∧ Effect.isCtrlDisconnectedCall e = false ∧
      Effect.isPrimaryCtrlCall e = false := by
  intro e he
  unfold doDisconnectRestoreStuff at he
  simp only [List.mem_append, List.mem_cons, List.not_mem_nil, or_false,
    apply_ite (fun l => e ∈ l), List.mem_singleton, if_true, if_false] at he
  rcases he with ((rfl | rfl | rfl | rfl) | hfw) | hlr
  · exact ⟨rfl, rfl, rfl, rfl, rfl⟩
  · exact ⟨rfl, rfl, rfl, rfl, rfl⟩
  · exact ⟨rfl, rfl, rfl, rfl, rfl⟩
  · exact ⟨rfl, rfl, rfl, rfl, rfl⟩
  · split at hfw <;> simp_all [Effect.isClickConnect, Effect.isClickDisconnect,
      Effect.isFirewallEnabledEmit, Effect.isCtrlDisconnectedCall,
      Effect.isPrimaryCtrlCall]
  · split at hlr <;> simp_all [Effect.isClickConnect, Effect.isClickDisconnect,
      Effect.isFirewallEnabledEmit, Effect.isCtrlDisconnectedCall,
      Effect.isPrimaryCtrlCall]

lemma addCustom_countP_clickConnect (s : EngineState) :
    (addCustomRemoteIpToFirewallIfNeed s).2.countP Effect.isClickConnect = 0 :=
  List.countP_eq_zero.mpr fun a ha => by simp [(addCustom_effects s a ha).1]

lemma addCustom_countP_clickDisconnect (s : EngineState) :
    (addCustomRemoteIpToFirewallIfNeed s).2.countP Effect.isClickDisconnect = 0 :=
  List.countP_eq_zero.mpr fun a ha => by simp [(addCustom_effects s a ha).2.1]

lemma addCustom_countP_fwEmit (s : EngineState) :
    (addCustomRemoteIpToFirewallIfNeed s).2.countP Effect.isFirewallEnabledEmit = 0 :=
  List.countP_eq_zero.mpr fun a ha => by simp [(addCustom_effects s a ha).2.2.1]

lemma ddrs_countP_clickConnect (s : EngineState) :
    (doDisconnectRestoreStuff s).2.countP Effect.isClickConnect = 0 :=
  List.countP_eq_zero.mpr fun a ha => by simp [(ddrs_effects s a ha).1]

lemma ddrs_countP_clickDisconnect (s : EngineState) :
    (doDisconnectRestoreStuff s).2.countP Effect.isClickDisconnect = 0 :=
  List.countP_eq_zero.mpr fun a ha => by simp [(ddrs_effects s a ha).2.1]

lemma ddrs_countP_fwEmit (s : EngineState) :
    (doDisconnectRestoreStuff s).2.countP Effect.isFirewallEnabledEmit = 0 :=
  List.countP_eq_zero.mpr fun a ha => by simp [(ddrs_effects s a ha).2.2.1]

lemma stopFetching_countP (p : Effect → Bool)
    (hp : p Effect.disconnectServerCredentialsFetchedSignal = false) (s : EngineState) :
    (stopFetchingServerCredentials s).countP p = 0 := by
  unfold stopFetchingServerCredentials
  split <;> simp [hp]

lemma doConnect_success_counts (s : EngineState) (flag : Bool) (bli : BaseLocationInfo)
    (hdb : s.locationDb s.locationId.ident = some bli)
    (hsel : bli.isExistSelectedNode = true) :
    (doConnect s flag).2.countP Effect.isClickConnect = 1 ∧
    (doConnect s flag).2.countP Effect.isClickDisconnect = 0 ∧
    (doConnect s flag).2.countP Effect.isFirewallEnabledEmit = 0 ∧
    (doConnect s flag).2.countP Effect.isCtrlDisconnectedCall = 0 ∧
    ∀ e ∈ (doConnect s flag).2, Effect.isClickConnect e = true →
      ∃ cset, e = Effect.cmClickConnect flag cset bli.locationId.ident := by
  unfold doConnect
  simp only [hdb]
  split
  · simp_all
  · split <;>
      refine ⟨by simp [Effect.isClickConnect], by simp [Effect.isClickDisconnect],
        by simp [Effect.isFirewallEnabledEmit], by simp [Effect.isCtrlDisconnectedCall],
        ?_⟩ <;>
      intro e he hcc <;>
      simp only [List.mem_cons, List.not_mem_nil, or_false] at he
    · rcases he with rfl | rfl
      · simp [Effect.isClickConnect] at hcc
      · exact ⟨_, rfl⟩
    · subst he
      exact ⟨_, rfl⟩

lemma stopFetching_effects (s : EngineState) :
    ∀ e ∈ stopFetchingServerCredentials s,
      e = Effect.disconnectServerCredentialsFetchedSignal := by
  unfold stopFetchingServerCredentials
  split <;> simp

lemma addCustom_filter_clickConnect (s : EngineState) :
    (addCustomRemoteIpToFirewallIfNeed s).2.filter Effect.isClickConnect = [] :=
  List.filter_eq_nil_iff.mpr fun a ha => by simp [(addCustom_effects s a ha).1]

lemma addCustom_filter_clickDisconnect (s : EngineState) :
    (addCustomRemoteIpToFirewallIfNeed s).2.filter Effect.isClickDisconnect = [] :=
  List.filter_eq_nil_iff.mpr fun a ha => by simp [(addCustom_effects s a ha).2.1]

lemma ddrs_filter_clickConnect (s : EngineState) :
    (doDisconnectRestoreStuff s).2.filter Effect.isClickConnect = [] :=
  List.filter_eq_nil_iff.mpr fun a ha => by simp [(ddrs_effects s a ha).1]

lemma ddrs_filter_clickDisconnect (s : EngineState) :
    (doDisconnectRestoreStuff s).2.filter Effect.isClickDisconnect = [] :=
  List.filter_eq_nil_iff.mpr fun a ha => by simp [(ddrs_effects s a ha).2.1]

lemma stopFetching_filter (p : Effect → Bool)
    (hp : p Effect.disconnectServerCredentialsFetchedSignal = false) (s : EngineState) :
    (stopFetchingServerCredentials s).filter p = [] := by
  unfold stopFetchingServerCredentials
  split <;> simp [hp]

lemma doConnect_filter_clickConnect (s : EngineState) (flag : Bool) (bli : BaseLocationInfo)
    (hdb : s.locationDb s.locationId.ident = some bli)
    (hsel : bli.isExistSelectedNode = true) :
    ∃ cset, (doConnect s flag).2.filter Effect.isClickConnect =
      [Effect.cmClickConnect flag cset bli.locationId.ident] := by
  unfold doConnect
  simp only [hdb]
  split
  · simp_all
  · split
    · exact ⟨if s.connectionSettingsOverride.isAutomatic = false then
          s.connectionSettingsOverride
        else s.engineSettings.connectionSettingsForNetwork s.currentNetworkSsid,
        by simp [Effect.isClickConnect]⟩
    · exact ⟨s.engineSettings.connectionSettingsForNetwork s.currentNetworkSsid,
        by simp [Effect.isClickConnect]⟩

lemma doConnect_filter_clickDisconnect (s : EngineState) (flag : Bool) :
    (doConnect s flag).2.filter Effect.isClickDisconnect = [] := by
  unfold doConnect
  cases h : s.locationDb s.locationId.ident <;> simp only [h]
  · simp [Effect.isClickDisconnect]
  · split
    · simp [Effect.isClickDisconnect]
    · split <;> simp [Effect.isClickDisconnect]

lemma proceed_filter_clickConnect (s : EngineState) (bli : BaseLocationInfo)
    (hdb : s.locationDb s.locationId.ident = some bli)
    (hsel : bli.isExistSelectedNode = true) :
    ∃ cset, (connectClickProceed s).2.filter Effect.isClickConnect =
      [Effect.cmClickConnect true cset bli.locationId.ident] := by
  have hdbA : (addCustomRemoteIpToFirewallIfNeed s).1.locationDb
      (addCustomRemoteIpToFirewallIfNeed s).1.locationId.ident = some bli := by
    rw [addCustom_locationDb, addCustom_locationId]; exact hdb
  unfold connectClickProceed
  by_cases hc : (addCustomRemoteIpToFirewallIfNeed s).1.engineSettings.firewallSettings.mode =
      FIREWALL_MODE.automatic ∧
      (addCustomRemoteIpToFirewallIfNeed s).1.engineSettings.firewallSettings.timing =
      FIREWALL_WHEN.beforeConnection
  · by_cases hfw : (addCustomRemoteIpToFirewallIfNeed s).1.firewallState
    · obtain ⟨cset, hcs⟩ :=
        doConnect_filter_clickConnect (addCustomRemoteIpToFirewallIfNeed s).1 true bli hdbA hsel
      exact ⟨cset, by
        simp [hc, hfw, List.filter_append, addCustom_filter_clickConnect,
          stopFetching_filter Effect.isClickConnect rfl, hcs]⟩
    · obtain ⟨cset, hcs⟩ :=
        doConnect_filter_clickConnect
          { (addCustomRemoteIpToFirewallIfNeed s).1 with firewallState := true } true bli
          (by simpa using hdbA) hsel
      exact ⟨cset, by
        simp [hc, hfw, List.filter_append, addCustom_filter_clickConnect,
          stopFetching_filter Effect.isClickConnect rfl, hcs, Effect.isClickConnect]⟩
  · obtain ⟨cset, hcs⟩ :=
      doConnect_filter_clickConnect (addCustomRemoteIpToFirewallIfNeed s).1 true bli hdbA hsel
    exact ⟨cset, by
      simp [hc, List.filter_append, addCustom_filter_clickConnect,
        stopFetching_filter Effect.isClickConnect rfl, hcs]⟩

lemma proceed_filter_clickDisconnect (s : EngineState) :
    (connectClickProceed s).2.filter Effect.isClickDisconnect = [] := by
  unfold connectClickProceed
  by_cases hc : (addCustomRemoteIpToFirewallIfNeed s).1.engineSettings.firewallSettings.mode =
      FIREWALL_MODE.automatic ∧
      (addCustomRemoteIpToFirewallIfNeed s).1.engineSettings.firewallSettings.timing =
      FIREWALL_WHEN.beforeConnection
  · by_cases hfw : (addCustomRemoteIpToFirewallIfNeed s).1.firewallState <;>
      simp [hc, hfw, List.filter_append, addCustom_filter_clickDisconnect,
        stopFetching_filter Effect.isClickDisconnect rfl,
        doConnect_filter_clickDisconnect, Effect.isClickDisconnect]
  · simp [hc, List.filter_append, addCustom_filter_clickDisconnect,
      stopFetching_filter Effect.isClickDisconnect rfl,
      doConnect_filter_clickDisconnect]

lemma doConnect_countP_fwEmit (s : EngineState) (flag : Bool) :
    (doConnect s flag).2.countP Effect.isFirewallEnabledEmit = 0 := by
  unfold doConnect
  cases h : s.locationDb s.locationId.ident <;> simp only [h]
  · simp [Effect.isFirewallEnabledEmit]
  · split
    · simp [Effect.isFirewallEnabledEmit]
    · split <;> simp [Effect.isFirewallEnabledEmit]

lemma proceed_marker (s : EngineState) :
    (connectClickProceed s).2.countP Effect.isFirewallEnabledEmit =
      (if s.engineSettings.firewallSettings.mode = FIREWALL_MODE.automatic ∧
          s.engineSettings.firewallSettings.timing = FIREWALL_WHEN.beforeConnection ∧
          s.firewallState = false then 1 else 0) := by
  unfold connectClickProceed
  by_cases hc : s.engineSettings.firewallSettings.mode = FIREWALL_MODE.automatic ∧
      s.engineSettings.firewallSettings.timing = FIREWALL_WHEN.beforeConnection
  · by_cases hfw : s.firewallState
    · have hrhs : ¬(s.engineSettings.firewallSettings.mode = FIREWALL_MODE.automatic ∧
          s.engineSettings.firewallSettings.timing = FIREWALL_WHEN.beforeConnection ∧
          s.firewallState = false) := by
        rintro ⟨-, -, h3⟩; rw [hfw] at h3; cases h3
      simp [addCustom_engineSettings, addCustom_firewallState, hc.1, hc.2, hfw, hrhs,
        List.countP_append, addCustom_countP_fwEmit,
        stopFetching_countP Effect.isFirewallEnabledEmit rfl, doConnect_countP_fwEmit]
    · have hfw' : s.firewallState = false := by simpa using hfw
      simp [addCustom_engineSettings, addCustom_firewallState, hc.1, hc.2, hfw',
        List.countP_append, addCustom_countP_fwEmit,
        stopFetching_countP Effect.isFirewallEnabledEmit rfl, doConnect_countP_fwEmit,
        Effect.isFirewallEnabledEmit]
  · have hrhs : ¬(s.engineSettings.firewallSettings.mode = FIREWALL_MODE.automatic ∧
        s.engineSettings.firewallSettings.timing = FIREWALL_WHEN.beforeConnection ∧
        s.firewallState = false) := by
      rintro ⟨h1, h2, -⟩; exact hc ⟨h1, h2⟩
    have hc' : ¬((addCustomRemoteIpToFirewallIfNeed s).1.engineSettings.firewallSettings.mode =
        FIREWALL_MODE.automatic ∧
        (addCustomRemoteIpToFirewallIfNeed s).1.engineSettings.firewallSettings.timing =
        FIREWALL_WHEN.beforeConnection) := by
      rw [addCustom_engineSettings]; exact hc
    simp [hc', hrhs, List.countP_append, addCustom_countP_fwEmit,
      stopFetching_countP Effect.isFirewallEnabledEmit rfl, doConnect_countP_fwEmit]

lemma connected_marker (st : EngineState) :
    (onConnectionManagerConnected st).2.countP Effect.isFirewallEnabledEmit =
      (if st.engineSettings.firewallSettings.mode = FIREWALL_MODE.automatic ∧
          st.cmIsAllowFirewallAfterConnection = true ∧
          st.engineSettings.firewallSettings.timing = FIREWALL_WHEN.afterConnection ∧
          st.firewallState = false then 1 else 0) := by
  unfold onConnectionManagerConnected
  by_cases hmode : st.engineSettings.firewallSettings.mode = FIREWALL_MODE.automatic
  · by_cases hallow : st.cmIsAllowFirewallAfterConnection = true ∧
        st.engineSettings.firewallSettings.timing = FIREWALL_WHEN.afterConnection
    · by_cases hfw : st.firewallState
      · have hrhs : ¬(st.engineSettings.firewallSettings.mode = FIREWALL_MODE.automatic ∧
            st.cmIsAllowFirewallAfterConnection = true ∧
            st.engineSettings.firewallSettings.timing = FIREWALL_WHEN.afterConnection ∧
            st.firewallState = false) := by
          rintro ⟨-, -, -, h4⟩; rw [hfw] at h4; cases h4
        simp [hmode, hallow.1, hallow.2, hfw, hrhs, List.countP_append,
          apply_ite (List.countP Effect.isFirewallEnabledEmit), ite_self,
          Effect.isFirewallEnabledEmit]
      · have hfw' : st.firewallState = false := by simpa using hfw
        simp [hmode, hallow.1, hallow.2, hfw', List.countP_append,
          apply_ite (List.countP Effect.isFirewallEnabledEmit), ite_self,
          Effect.isFirewallEnabledEmit]
    · have hrhs : ¬(st.engineSettings.firewallSettings.mode = FIREWALL_MODE.automatic ∧
          st.cmIsAllowFirewallAfterConnection = true ∧
          st.engineSettings.firewallSettings.timing = FIREWALL_WHEN.afterConnection ∧
          st.firewallState = false) := by
        rintro ⟨-, h2, h3, -⟩; exact hallow ⟨h2, h3⟩
      by_cases hdis : st.cmIsAllowFirewallAfterConnection = false ∧
          st.engineSettings.firewallSettings.timing = FIREWALL_WHEN.beforeConnection
      · by_cases hfw : st.firewallState <;>
          simp [hmode, hallow, hdis, hfw, hrhs, List.countP_append,
            apply_ite (List.countP Effect.isFirewallEnabledEmit), ite_self,
            Effect.isFirewallEnabledEmit]
      · have hrhs3 : ¬(st.cmIsAllowFirewallAfterConnection = true ∧
            st.engineSettings.firewallSettings.timing = FIREWALL_WHEN.afterConnection ∧
            st.firewallState = false) := by
          rintro ⟨h2, h3, -⟩; exact hallow ⟨h2, h3⟩
        simp [hmode, hallow, hdis, hrhs3, List.countP_append,
          apply_ite (List.countP Effect.isFirewallEnabledEmit), ite_self,
          Effect.isFirewallEnabledEmit]
  · have hrhs : ¬(st.engineSettings.firewallSettings.mode = FIREWALL_MODE.automatic ∧
        st.cmIsAllowFirewallAfterConnection = true ∧
        st.engineSettings.firewallSettings.timing = FIREWALL_WHEN.afterConnection ∧
        st.firewallState = false) := by
      rintro ⟨h1, -⟩; exact hmode h1
    simp [hmode, hrhs, List.countP_append,
      apply_ite (List.countP Effect.isFirewallEnabledEmit), ite_self,
      Effect.isFirewallEnabledEmit]

lemma connImpl_reconnectBranch (st : EngineState) (loc : LocationID)
    (cs : ConnectionSettings) (hcm : st.cmIsDisconnected = false) :
    connectClickImpl st loc cs =
      ({ st with locationId := loc, connectionSettingsOverride := cs,
                 senderSource := some "reconnect" }, [Effect.cmClickDisconnect]) := by
  unfold connectClickImpl
  simp [hcm]

lemma connImpl_proceedBranch (st : EngineState) (loc : LocationID)
    (cs : ConnectionSettings) (hcm : st.cmIsDisconnected = true)
    (hb : ¬(st.isBlockConnect = true ∧ loc.isCustomConfigs = false)) :
    connectClickImpl st loc cs =
      connectClickProceed { st with locationId := loc, connectionSettingsOverride := cs } := by
  unfold connectClickImpl
  simp [hcm, hb, LocationID.isCustomConfigsLocation]

lemma connImpl_marker (st : EngineState) (loc : LocationID) (cs : ConnectionSettings) :
    (connectClickImpl st loc cs).2.countP Effect.isFirewallEnabledEmit =
      (if st.cmIsDisconnected = true ∧
          ¬(st.isBlockConnect = true ∧ loc.isCustomConfigs = false) ∧
          st.engineSettings.firewallSettings.mode = FIREWALL_MODE.automatic ∧
          st.engineSettings.firewallSettings.timing = FIREWALL_WHEN.beforeConnection ∧
          st.firewallState = false then 1 else 0) := by
  by_cases hcm : st.cmIsDisconnected = true
  · by_cases hb : st.isBlockConnect = true ∧ loc.isCustomConfigs = false
    · have heq : connectClickImpl st loc cs =
          ({ st with locationId := loc, connectionSettingsOverride := cs,
                     connectState := CONNECT_STATE.disconnected },
           [Effect.ctrlSetDisconnected DISCONNECT_REASON.withError CONNECT_ERROR.connectionBlocked,
            Effect.myIpGetIP 1]) := by
        unfold connectClickImpl
        simp [hcm, hb.1, hb.2, LocationID.isCustomConfigsLocation]
      rw [heq]
      simp [hb, Effect.isFirewallEnabledEmit]
    · rw [connImpl_proceedBranch st loc cs hcm hb, proceed_marker]
      by_cases hRest : st.engineSettings.firewallSettings.mode = FIREWALL_MODE.automatic ∧
          st.engineSettings.firewallSettings.timing = FIREWALL_WHEN.beforeConnection ∧
          st.firewallState = false
      · simp [hcm, hb, hRest, hRest.1, hRest.2.1, hRest.2.2]
      · simp [hcm, hb, hRest]
  · have hcm' : st.cmIsDisconnected = false := by simpa using hcm
    rw [connImpl_reconnectBranch st loc cs hcm']
    simp [hcm', Effect.isFirewallEnabledEmit]

/-- C2: per connection attempt at most one of the two automatic firewall
enable actions fires, and which one fires matches the configured
mode x timing: the before-connection action fires in connectClickImpl exactly
when the sequence proceeds with mode automatic, timing before-connection and
the firewall off; the after-connection action fires in the connected handler
exactly when mode is automatic, the backend allows firewall-after-connect,
timing is after-connection and the firewall is off. -/
theorem firewall_policy_exclusive (st : EngineState) (loc : LocationID)
    (cs : ConnectionSettings) (stc : EngineState)
    (hset : stc.engineSettings = st.engineSettings) :
    ((connectClickImpl st loc cs).2.countP Effect.isFirewallEnabledEmit)
      + ((onConnectionManagerConnected stc).2.countP Effect.isFirewallEnabledEmit) ≤ 1 ∧
    ((connectClickImpl st loc cs).2.countP Effect.isFirewallEnabledEmit =
      (if st.cmIsDisconnected = true ∧
          ¬(st.isBlockConnect = true ∧ loc.isCustomConfigs = false) ∧
          st.engineSettings.firewallSettings.mode = FIREWALL_MODE.automatic ∧
          st.engineSettings.firewallSettings.timing = FIREWALL_WHEN.beforeConnection ∧
          st.firewallState = false then 1 else 0)) ∧
    ((onConnectionManagerConnected stc).2.countP Effect.isFirewallEnabledEmit =
      (if st.engineSettings.firewallSettings.mode = FIREWALL_MODE.automatic ∧
          stc.cmIsAllowFirewallAfterConnection = true ∧
          st.engineSettings.firewallSettings.timing = FIREWALL_WHEN.afterConnection ∧
          stc.firewallState = false then 1 else 0)) := by
  have h1 := connImpl_marker st loc cs
  have h2 := connected_marker stc
  rw [hset] at h2
  refine ⟨?_, h1, h2⟩
  rw [h1, h2]
  split_ifs <;> simp_all

/-- Witness for C2: with automatic mode and after-connection timing on a
concrete disconnected state with the firewall off, only the after-connection
enable action fires. -/
theorem firewall_policy_exclusive_witness :
    ((connectClickImpl { baseState with engineSettings :=
        { baseEngineSettings with firewallSettings :=
            ⟨FIREWALL_MODE.automatic, FIREWALL_WHEN.afterConnection⟩ } } locB
        ⟨Protocol.uninitialized, 0, true⟩).2.countP Effect.isFirewallEnabledEmit)
      + ((onConnectionManagerConnected { baseState with engineSettings :=
        { baseEngineSettings with firewallSettings :=
            ⟨FIREWALL_MODE.automatic, FIREWALL_WHEN.afterConnection⟩ } }).2.countP
          Effect.isFirewallEnabledEmit) ≤ 1 ∧
    (onConnectionManagerConnected { baseState with engineSettings :=
        { baseEngineSettings with firewallSettings :=
            ⟨FIREWALL_MODE.automatic, FIREWALL_WHEN.afterConnection⟩ } }).2.countP
      Effect.isFirewallEnabledEmit = 1 := by
  have h := firewall_policy_exclusive
    { baseState with engineSettings :=
        { baseEngineSettings with firewallSettings :=
            ⟨FIREWALL_MODE.automatic, FIREWALL_WHEN.afterConnection⟩ } } locB
    ⟨Protocol.uninitialized, 0, true⟩
    { baseState with engineSettings :=
        { baseEngineSettings with firewallSettings :=
            ⟨FIREWALL_MODE.automatic, FIREWALL_WHEN.afterConnection⟩ } } rfl
  refine ⟨h.1, ?_⟩
  rw [h.2.2]
  simp [baseState]

lemma doConnect_senderSource (s : EngineState) (flag : Bool) :
    (doConnect s flag).1.senderSource = s.senderSource := by
  unfold doConnect
  cases h : s.locationDb s.locationId.ident with
  | none => simp only [h]
  | some bli =>
    simp only [h]
    by_cases hn : (!bli.isExistSelectedNode) = true
    · simp [hn]
    · by_cases ha : s.hasApiResourcesManager = true <;> simp [hn, ha]

lemma proceed_senderSource (s : EngineState) :
    (connectClickProceed s).1.senderSource = s.senderSource := by
  unfold connectClickProceed
  by_cases hc : (addCustomRemoteIpToFirewallIfNeed s).1.engineSettings.firewallSettings.mode =
      FIREWALL_MODE.automatic ∧
      (addCustomRemoteIpToFirewallIfNeed s).1.engineSettings.firewallSettings.timing =
      FIREWALL_WHEN.beforeConnection
  · by_cases hfw : (addCustomRemoteIpToFirewallIfNeed s).1.firewallState <;>
      simp [hc, hfw, doConnect_senderSource, addCustom_senderSource]
  · simp [hc, doConnect_senderSource, addCustom_senderSource]

lemma onCMD_reconnectBranch (st : EngineState) (reason : DISCONNECT_REASON)
    (hss : st.senderSource = some "reconnect") :
    onConnectionManagerDisconnected st reason =
      ((connectClickImpl (doDisconnectRestoreStuff { st with senderSource := none }).1
          (doDisconnectRestoreStuff { st with senderSource := none }).1.locationId
          (doDisconnectRestoreStuff { st with senderSource := none }).1.connectionSettingsOverride).1,
       (if st.cmIsStaticIpsLocation = true then [Effect.fwDeleteWhitelistPorts] else []) ++
         (doDisconnectRestoreStuff { st with senderSource := none }).2 ++
         (connectClickImpl (doDisconnectRestoreStuff { st with senderSource := none }).1
          (doDisconnectRestoreStuff { st with senderSource := none }).1.locationId
          (doDisconnectRestoreStuff { st with senderSource := none }).1.connectionSettingsOverride).2) := by
  unfold onConnectionManagerDisconnected
  simp [hss]

/-- C1: a connect command issued while the ConnectionManager is not
disconnected only tags the manager with the one-shot "reconnect" marker and
requests disconnect; on the disconnect-completion event the tag is consumed
(reset to empty) and the same connect sequence is re-invoked for the stored
location, so the combined run contains exactly one clickDisconnect followed
by exactly one clickConnect, targeted at the new location. -/
theorem reconnect_sequence (st : EngineState) (B : LocationID) (cs : ConnectionSettings)
    (bli : BaseLocationInfo) (reason : DISCONNECT_REASON)
    (hcm : st.cmIsDisconnected = false)
    (hblock : st.isBlockConnect = false)
    (hdb : st.locationDb B.ident = some bli)
    (hsel : bli.isExistSelectedNode = true)
    (hident : bli.locationId.ident = B.ident) :
    (connectClickImpl st B cs).2 = [Effect.cmClickDisconnect] ∧
    (connectClickImpl st B cs).1.senderSource = some "reconnect" ∧
    (onConnectionManagerDisconnected
        { (connectClickImpl st B cs).1 with cmIsDisconnected := true } reason).1.senderSource
      = none ∧
    ((connectClickImpl st B cs).2 ++
      (onConnectionManagerDisconnected
        { (connectClickImpl st B cs).1 with cmIsDisconnected := true } reason).2).countP
      Effect.isClickDisconnect = 1 ∧
    ((connectClickImpl st B cs).2 ++
      (onConnectionManagerDisconnected
        { (connectClickImpl st B cs).1 with cmIsDisconnected := true } reason).2).countP
      Effect.isClickConnect = 1 ∧
    ∀ e ∈ (onConnectionManagerDisconnected
        { (connectClickImpl st B cs).1 with cmIsDisconnected := true } reason).2,
      Effect.isClickConnect e = true →
        ∃ cset, e = Effect.cmClickConnect true cset B.ident := by
  have h1 := connImpl_reconnectBranch st B cs hcm
  have hss : ({ (connectClickImpl st B cs).1 with
      cmIsDisconnected := true } : EngineState).senderSource = some "reconnect" := by
    simp [h1]
  have h2 := onCMD_reconnectBranch
    { (connectClickImpl st B cs).1 with cmIsDisconnected := true } reason hss
  -- shorthand for the restored state fed back into connectClickImpl
  set stD : EngineState :=
    (doDisconnectRestoreStuff { ({ (connectClickImpl st B cs).1 with
      cmIsDisconnected := true } : EngineState) with senderSource := none }).1 with hstD
  have hD_cm : stD.cmIsDisconnected = true := by
    rw [hstD, ddrs_fst]
  have hD_block : stD.isBlockConnect = false := by
    rw [hstD, ddrs_fst]; simp [h1, hblock]
  have hD_loc : stD.locationId = B := by
    rw [hstD, ddrs_fst]; simp [h1]
  have hD_cs : stD.connectionSettingsOverride = cs := by
    rw [hstD, ddrs_fst]; simp [h1]
  have hD_db : stD.locationDb = st.locationDb := by
    rw [hstD, ddrs_fst]; simp [h1]
  have hD_ss : stD.senderSource = none := by
    rw [hstD, ddrs_fst]
  have hb : ¬(stD.isBlockConnect = true ∧ B.isCustomConfigs = false) := by
    rw [hD_block]; rintro ⟨hx, -⟩; cases hx
  have hproc : connectClickImpl stD stD.locationId stD.connectionSettingsOverride =
      connectClickProceed { stD with locationId := B, connectionSettingsOverride := cs } := by
    rw [hD_loc, hD_cs]
    exact connImpl_proceedBranch stD B cs hD_cm hb
  have hXdb : ({ stD with locationId := B, connectionSettingsOverride := cs } :
      EngineState).locationDb
      ({ stD with locationId := B, connectionSettingsOverride := cs } :
      EngineState).locationId.ident = some bli := by
    simp [hD_db, hdb]
  obtain ⟨cset, hfc⟩ := proceed_filter_clickConnect
    { stD with locationId := B, connectionSettingsOverride := cs } bli hXdb hsel
  have hfd := proceed_filter_clickDisconnect
    { stD with locationId := B, connectionSettingsOverride := cs }
  refine ⟨by rw [h1], by simp [h1], ?_, ?_, ?_, ?_⟩
  · rw [h2, hproc, proceed_senderSource]
    simp [hD_ss]
  · rw [h2, hproc, h1]
    simp [List.countP_eq_length_filter, List.filter_append, hfd,
      ddrs_filter_clickDisconnect, apply_ite (List.filter Effect.isClickDisconnect),
      Effect.isClickDisconnect]
  · rw [h2, hproc, h1]
    simp [List.countP_eq_length_filter, List.filter_append, hfc,
      ddrs_filter_clickConnect, apply_ite (List.filter Effect.isClickConnect),
      Effect.isClickConnect]
  · intro e he hcc
    rw [h2] at he
    simp only [List.mem_append] at he
    rcases he with (he | he) | he
    · split at he
      · simp only [List.mem_singleton] at he
        subst he
        simp [Effect.isClickConnect] at hcc
      · simp at he
    · simp [(ddrs_effects _ e he).1] at hcc
    · rw [hproc] at he
      have hmem : e ∈ (connectClickProceed
          { stD with locationId := B, connectionSettingsOverride := cs }).2.filter
          Effect.isClickConnect := List.mem_filter.mpr ⟨he, hcc⟩
      rw [hfc] at hmem
      simp only [List.mem_singleton] at hmem
      exact ⟨cset, by rw [hmem, hident]⟩

/-- Witness for C1: connect to locB while the manager is busy on the concrete
base state: one disconnect request, then one connect on completion. -/
theorem reconnect_sequence_witness :
    (connectClickImpl { baseState with cmIsDisconnected := false } locB
        ⟨Protocol.uninitialized, 0, true⟩).2 = [Effect.cmClickDisconnect] ∧
    ((connectClickImpl { baseState with cmIsDisconnected := false } locB
        ⟨Protocol.uninitialized, 0, true⟩).2 ++
      (onConnectionManagerDisconnected
        { (connectClickImpl { baseState with cmIsDisconnected := false } locB
            ⟨Protocol.uninitialized, 0, true⟩).1 with cmIsDisconnected := true }
        DISCONNECT_REASON.itself).2).countP Effect.isClickConnect = 1 := by
  have h := reconnect_sequence { baseState with cmIsDisconnected := false } locB
    ⟨Protocol.uninitialized, 0, true⟩ ⟨locB, true, "B"⟩ DISCONNECT_REASON.itself
    rfl rfl (by simp [baseState, locB]) rfl rfl
  exact ⟨h.1, h.2.2.2.2.1⟩
